import Mathlib

/-!
Verification development for a Solana market-signal trading system.

The development shallowly embeds the two core components of the repository:

* the signal pipeline — `signal_generator.py` (per-name signal cache and
  scheduler) and `signal_processor.py` (weighted fusion of signals into a
  trading decision), with the static configuration from `config.py`;
* the resilient RPC client — `SolanaClient._make_request` in
  `solana_client.py` (endpoint failover, retry counting, exponential
  backoff, rate-limit handling), and the futures-endpoint wrappers of
  `binance_client.py` (base-URL swap and restore).

Modelling conventions: Python floats are modelled exactly over `ℚ`
(the fused quantities in the source are products and sums of small
decimals; float rounding is out of scope), Unix timestamps over `ℤ`,
and machine-level effects explicitly: the single wall-clock reading of
`process_signals` becomes an explicit `current_time : ℤ` argument, network
responses become an oracle argument mapping the request sequence number to
an outcome, `time.sleep` calls are recorded in a trace, and a Python
function that can raise becomes a function into `Except`.  The free-text
`reason` strings of the source are modelled by an inductive carrying the
same information (which names pushed positive/negative, or the threshold
values), and the opaque `components` payload of a signal is omitted: no
modelled logic reads it.
-/

namespace SolTrade

/-- The configured signal names: exactly the keys of `INDICATORS` in
`config.py`. The configuration is static, so these form the whole universe
of signal names the scheduler and fusion engine can reference. -/
inductive SigName where
  | ORDER_FLOW
  | BLOCKCHAIN_OI
  | MARKET_DEPTH
  | SENTIMENT
  | ON_CHAIN
  | SCALP
deriving DecidableEq, Repr

/-- `INDICATORS[name]["update_interval"]` from `config.py` (seconds). -/
def update_interval : SigName → ℤ
  | .ORDER_FLOW => 60
  | .BLOCKCHAIN_OI => 120
  | .MARKET_DEPTH => 60
  | .SENTIMENT => 180
  | .ON_CHAIN => 120
  | .SCALP => 60

/-- `INDICATORS[name]["validity_period"]` from `config.py` (seconds). -/
def validity_period : SigName → ℤ
  | .ORDER_FLOW => 120
  | .BLOCKCHAIN_OI => 180
  | .MARKET_DEPTH => 120
  | .SENTIMENT => 180
  | .ON_CHAIN => 180
  | .SCALP => 120

/-- `SignalData` from `signal_generator.py`.  The `components` dictionary
(opaque raw indicator payloads, read by no modelled logic) is omitted. -/
structure SignalData where
  timestamp : ℤ
  name : SigName
  strength : ℚ
  direction : ℤ
  confidence : ℚ
  validity : ℤ
deriving DecidableEq, Repr

/-- Trading action of a decision. -/
inductive Action where
  | BUY
  | SELL
  | HOLD
deriving DecidableEq, Repr

/-- The information content of the free-text `reason` built by
`SignalProcessor.process_signals`: either the threshold-veto message
(which interpolates the weighted confidence and strength), or the list of
positive/negative signal names, or the inconclusive message. -/
inductive Reason where
  | belowThresholds (conf strength : ℚ)
  | positive (names : List SigName)
  | negative (names : List SigName)
  | inconclusive
deriving DecidableEq, Repr

/-- `TradingDecision` from `signal_processor.py`. -/
structure TradingDecision where
  timestamp : ℤ
  action : Action
  confidence : ℚ
  signals : List SignalData
  reason : Reason
  strength : ℚ
deriving DecidableEq, Repr

/-- Thresholds held by `SignalProcessor.__init__`. -/
structure SignalProcessor where
  confidence_threshold : ℚ
  strength_threshold : ℚ
deriving DecidableEq, Repr

/-- The default processor (`confidence_threshold=0.7`,
`strength_threshold=30.0`). -/
def defaultProcessor : SignalProcessor := ⟨7/10, 30⟩

/-- `SignalProcessor._calculate_signal_weights`: the fixed weight table
(0.20, 0.15, 0.20, 0.15, 0.10, 0.20). -/
def calculate_signal_weights : SigName → ℚ
  | .ORDER_FLOW => 1/5
  | .BLOCKCHAIN_OI => 3/20
  | .MARKET_DEPTH => 1/5
  | .SENTIMENT => 3/20
  | .ON_CHAIN => 1/10
  | .SCALP => 1/5

/-- The validity filter of `process_signals`: keep a signal when
`signal.timestamp + INDICATORS[name]["validity_period"] >= current_time`.
Input signal mappings are association lists in dictionary iteration
order. -/
def validSignals (signals : List (SigName × SignalData)) (current_time : ℤ) :
    List (SigName × SignalData) :=
  signals.filter fun q => q.2.timestamp + validity_period q.1 ≥ current_time

/-- Accumulated `total_weight` over the valid signals.  In the source the
`if name in weights` guard always holds: the weight table's keys are
exactly the configured names, i.e. all of `SigName`. -/
def totalWeight (l : List (SigName × SignalData)) : ℚ :=
  (l.map fun q => calculate_signal_weights q.1).sum

/-- Accumulated `weighted_direction` (before normalisation). -/
def wDirSum (l : List (SigName × SignalData)) : ℚ :=
  (l.map fun q => (q.2.direction : ℚ) * calculate_signal_weights q.1).sum

/-- Accumulated `weighted_strength` (before normalisation): uses
`abs(signal.strength)`. -/
def wStrSum (l : List (SigName × SignalData)) : ℚ :=
  (l.map fun q => |q.2.strength| * calculate_signal_weights q.1).sum

/-- Accumulated `weighted_confidence` (before normalisation). -/
def wConfSum (l : List (SigName × SignalData)) : ℚ :=
  (l.map fun q => q.2.confidence * calculate_signal_weights q.1).sum

/-- The direction classification of `process_signals`
(`BUY` above `0.3`, `SELL` below `-0.3`, else `HOLD`). -/
def classifyDirection (wd : ℚ) : Action :=
  if wd > 3/10 then .BUY else if wd < -(3/10) then .SELL else .HOLD

/-- `SignalProcessor.process_signals` from `signal_processor.py`.
The source reads `time.time()` exactly once; that single reading is the
explicit `current_time` argument.  Returns `none` on an empty mapping,
when no signal is still valid, or when the total weight is zero; otherwise
normalises the weighted sums, classifies the direction, applies the
threshold veto and builds the decision. -/
def process_signals (p : SignalProcessor) (signals : List (SigName × SignalData))
    (current_time : ℤ) : Option TradingDecision :=
  if signals.isEmpty then none
  else
    let valid_signals := validSignals signals current_time
    if valid_signals.isEmpty then none
    else
      let total_weight := totalWeight valid_signals
      if total_weight = 0 then none
      else
        let weighted_direction := wDirSum valid_signals / total_weight
        let weighted_strength := wStrSum valid_signals / total_weight
        let weighted_confidence := wConfSum valid_signals / total_weight
        let action := classifyDirection weighted_direction
        if weighted_confidence < p.confidence_threshold ∨
            weighted_strength < p.strength_threshold then
          some ⟨current_time, .HOLD, weighted_confidence,
                valid_signals.map Prod.snd,
                .belowThresholds weighted_confidence weighted_strength,
                weighted_strength⟩
        else
          let positive_signals :=
            (valid_signals.filter fun q => q.2.direction > 0).map Prod.fst
          let negative_signals :=
            (valid_signals.filter fun q => q.2.direction < 0).map Prod.fst
          let reason : Reason :=
            match action with
            | .BUY => .positive positive_signals
            | .SELL => .negative negative_signals
            | .HOLD => .inconclusive
          some ⟨current_time, action, weighted_confidence,
                valid_signals.map Prod.snd, reason, weighted_strength⟩

/-- An explicit environment for the impure reads available to
`process_signals`: successive wall-clock readings and a randomness
source.  The source body performs exactly one impure read influencing its
result — `current_time = int(time.time())` — and consults no randomness. -/
structure Env where
  clock : ℕ → ℤ
  rand : ℕ → ℕ

/-- `process_signals` as run against an environment: the single
`time.time()` call reads `env.clock 0`; nothing else of the environment is
consulted. -/
def process_signals_run (p : SignalProcessor) (signals : List (SigName × SignalData))
    (env : Env) : Option TradingDecision :=
  process_signals p signals (env.clock 0)

/-! ## Signal cache and scheduler (`SignalGenerator` in `signal_generator.py`) -/

/-- Error raised by a signal compute function (an uncaught exception from
the indicator calls inside a `generate_*_signal` body). -/
inductive IndicatorError where
  | upstream (msg : String)
deriving DecidableEq, Repr

/-- The mutable scheduler state of `SignalGenerator`: `self.last_update`
(dictionary defaulting to 0 via `.get(name, 0)`) and `self.signal_cache`. -/
structure GenState where
  last_update : SigName → Option ℤ
  signal_cache : SigName → Option SignalData

/-- The state of a freshly constructed `SignalGenerator`: both
dictionaries empty. -/
def emptyGenState : GenState := ⟨fun _ => none, fun _ => none⟩

/-- `SignalGenerator._should_update_signal`.  Every `SigName` is a key of
`INDICATORS`, so the `signal_name not in INDICATORS` early-`True` branch
of the source is vacuous here. -/
def should_update_signal (st : GenState) (name : SigName) (current_time : ℤ) : Bool :=
  current_time - ((st.last_update name).getD 0) ≥ update_interval name

/-- `SignalGenerator._is_signal_valid`: an entry exists and
`current_time - signal.timestamp <= validity_period`. -/
def is_signal_valid (st : GenState) (name : SigName) (current_time : ℤ) : Bool :=
  match st.signal_cache name with
  | none => false
  | some s => current_time - s.timestamp ≤ validity_period name

/-- The cache write at the end of every `generate_*_signal` body:
`self.signal_cache[name] = signal; self.last_update[name] = int(time.time())`. -/
def storeSignal (st : GenState) (name : SigName) (sig : SignalData)
    (current_time : ℤ) : GenState :=
  ⟨fun n => if n = name then some current_time else st.last_update n,
   fun n => if n = name then some sig else st.signal_cache n⟩

/-- The shared shape of every `SignalGenerator.generate_*_signal` method
(the scheduler's `getOrCompute`): if the signal is not due and the cached
entry is still valid, return the cached entry unchanged; otherwise run the
compute body (abstracted as `computeFn`, the indicator calls plus signal
construction), store the fresh signal, and return it.  The methods contain
no exception handler, so a raising compute body propagates as
`Except.error` and performs no cache write.  The returned `Bool` records
whether the compute body was invoked. -/
def generate_signal (name : SigName) (computeFn : Except IndicatorError SignalData)
    (st : GenState) (current_time : ℤ) :
    Except IndicatorError (SignalData × GenState × Bool) :=
  match st.signal_cache name with
  | some cached =>
    if !should_update_signal st name current_time &&
        is_signal_valid st name current_time then
      .ok (cached, st, false)
    else
      match computeFn with
      | .error e => .error e
      | .ok sig => .ok (sig, storeSignal st name sig current_time, true)
  | none =>
    match computeFn with
    | .error e => .error e
    | .ok sig => .ok (sig, storeSignal st name sig current_time, true)

/-- `SignalGenerator.get_all_signals`: generates the six configured
signals in source order (every `if name in INDICATORS` guard holds) and
returns one entry per name.  Each per-name compute body is abstracted by
`fns name`; an error from any body propagates (the source has no handler). -/
def get_all_signals (fns : SigName → Except IndicatorError SignalData)
    (st : GenState) (current_time : ℤ) :
    Except IndicatorError (List (SigName × SignalData) × GenState) := do
  let (s1, st1, _) ← generate_signal .ORDER_FLOW (fns .ORDER_FLOW) st current_time
  let (s2, st2, _) ← generate_signal .BLOCKCHAIN_OI (fns .BLOCKCHAIN_OI) st1 current_time
  let (s3, st3, _) ← generate_signal .MARKET_DEPTH (fns .MARKET_DEPTH) st2 current_time
  let (s4, st4, _) ← generate_signal .SENTIMENT (fns .SENTIMENT) st3 current_time
  let (s5, st5, _) ← generate_signal .ON_CHAIN (fns .ON_CHAIN) st4 current_time
  let (s6, st6, _) ← generate_signal .SCALP (fns .SCALP) st5 current_time
  return ([(.ORDER_FLOW, s1), (.BLOCKCHAIN_OI, s2), (.MARKET_DEPTH, s3),
           (.SENTIMENT, s4), (.ON_CHAIN, s5), (.SCALP, s6)], st6)

/-! ## Resilient RPC client (`SolanaClient._make_request` in `solana_client.py`) -/

/-- The parsed JSON body of a successful HTTP response: either a
`result` field, or an `error` field whose text does (`rateLimited = true`)
or does not match the substrings `"rate limit"` / `"too many"`. -/
inductive RpcBody where
  | ok (v : ℤ)
  | err (rateLimited : Bool) (msg : String)
deriving DecidableEq, Repr

/-- What the network returns for one issued request: either a
`requests.exceptions.RequestException` at transport level, or an HTTP
response with a status code, an optional integer `Retry-After` header and
a parsed JSON-RPC body. -/
inductive HttpOutcome where
  | transportErr (msg : String)
  | resp (status : ℕ) (retryAfter : Option ℕ) (body : RpcBody)
deriving DecidableEq, Repr

/-- The last observed error carried by the exhausted-retries exception. -/
inductive LastErr where
  | transport (msg : String)
  | httpStatus (status : ℕ)
deriving DecidableEq, Repr

/-- How one loop iteration of `_make_request` treats the outcome of its
request, following the source's control flow in order: the explicit
`status_code == 429` branch; then `raise_for_status()` (any remaining
status `>= 400` raises an `HTTPError`, caught by the same handler as a
transport failure); then the JSON `error` field (a rate-limit-matching
message retries the next endpoint, any other message raises a plain
`Exception` that no handler catches). -/
inductive StepClass where
  | success (v : ℤ)
  | immediateErr (msg : String)
  | rlPayload
  | fail429 (delay : ℕ)
  | httpFail (e : LastErr)
deriving DecidableEq, Repr

/-- `max_retries = 3` in `_make_request`. -/
def maxRetries : ℕ := 3

/-- `base_delay = 2` seconds in `_make_request`. -/
def baseDelay : ℕ := 2

/-- Classify a request outcome per the branch order of the source (429
check before `raise_for_status`, before JSON error inspection).  The 429
branch's sleep is `int(response.headers.get("Retry-After", 2))`. -/
def classifyOutcome : HttpOutcome → StepClass
  | .transportErr m => .httpFail (.transport m)
  | .resp status retryAfter body =>
    if status = 429 then .fail429 (retryAfter.getD 2)
    else if 400 ≤ status then .httpFail (.httpStatus status)
    else
      match body with
      | .ok v => .success v
      | .err true _ => .rlPayload
      | .err false m => .immediateErr m

/-- The exceptions `_make_request` can raise: the exhausted-retries
`Exception` carrying the last observed error, or the plain `Exception`
raised on a non-rate-limit JSON-RPC error payload. -/
inductive MExn where
  | exhausted (e : LastErr)
  | rpc (msg : String)
deriving DecidableEq, Repr

/-- How `_make_request` can finish: return a result, raise an exception,
fall off the `while` loop (Python then returns `None`), or — for the fuel
model only — still be looping after the given number of iterations. -/
inductive MRes where
  | ok (v : ℤ)
  | exn (e : MExn)
  | retNone
  | diverge
deriving DecidableEq, Repr

/-- Result of running the retry loop: how it finished, the chronological
list of `time.sleep` durations (seconds) it performed, and the value of
`retry_count` when it stopped. -/
structure RunResult where
  res : MRes
  sleeps : List ℕ
  rc : ℕ
deriving DecidableEq, Repr

/-- The sleep at the top of each iteration: when `retry_count > 0`, sleep
`base_delay * 2 ** (retry_count - 1)` before issuing the request.  Sleeps
are accumulated in reverse. -/
def topSleep (rc : ℕ) (acc : List ℕ) : List ℕ :=
  if 0 < rc then baseDelay * 2 ^ (rc - 1) :: acc else acc

/-- The retry loop of `_make_request`, one constructor case per loop
iteration.  State: `k` counts issued requests (the oracle maps `k` to the
outcome of request number `k`), `rc` is `retry_count`, `idx` is
`current_endpoint_index`, `n` the endpoint-pool size
(`[self.rpc_url] + self.fallback_endpoints`, 4 in the source), `acc` the
reversed sleep trace.  Mirrors the source: loop guard
`retry_count <= max_retries`; backoff sleep when `retry_count > 0`; on 429
advance the index, increment `retry_count` exactly when the index wrapped,
sleep `Retry-After` (default 2) and continue; on transport failure or
`raise_for_status` advance the index, increment `retry_count` exactly on
wrap, raise the exhausted exception when `retry_count > max_retries`, else
continue; on a rate-limit error payload advance the index and continue
without touching `retry_count`; on success return `result["result"]`; on
any other error payload raise.  `fuel` bounds the iterations modelled:
`.diverge` means the loop was still running. -/
def makeRequestAux (oracle : ℕ → HttpOutcome) (n : ℕ) :
    ℕ → ℕ → ℕ → ℕ → List ℕ → RunResult
  | 0, _, rc, _, acc => ⟨.diverge, acc.reverse, rc⟩
  | fuel + 1, k, rc, idx, acc =>
    if maxRetries < rc then ⟨.retNone, acc.reverse, rc⟩
    else
      let acc1 := topSleep rc acc
      match classifyOutcome (oracle k) with
      | .success v => ⟨.ok v, acc1.reverse, rc⟩
      | .immediateErr m => ⟨.exn (.rpc m), acc1.reverse, rc⟩
      | .rlPayload => makeRequestAux oracle n fuel (k + 1) rc (idx + 1) acc1
      | .fail429 d =>
        let rc' := if (idx + 1) % n = 0 then rc + 1 else rc
        makeRequestAux oracle n fuel (k + 1) rc' (idx + 1) (d :: acc1)
      | .httpFail e =>
        let rc' := if (idx + 1) % n = 0 then rc + 1 else rc
        if maxRetries < rc' then ⟨.exn (.exhausted e), acc1.reverse, rc'⟩
        else makeRequestAux oracle n fuel (k + 1) rc' (idx + 1) acc1

/-- `_make_request` started in its initial state
(`retry_count = 0`, `current_endpoint_index = 0`). -/
def make_request (oracle : ℕ → HttpOutcome) (n : ℕ) (fuel : ℕ) : RunResult :=
  makeRequestAux oracle n fuel 0 0 0 []

/-! ## Binance futures-endpoint wrappers (`binance_client.py`) -/

/-- The attribute bindings of `BinanceClient` set in `__init__`.  The
`session` attribute holds an opaque external `requests.Session` object;
no method of the class ever reassigns it, so it is not part of the record
of mutable bindings. -/
structure BinanceClientState where
  base_url : String
  api_key : String
  api_secret : String
deriving DecidableEq, Repr

/-- The futures base URL the three wrappers swap in. -/
def futuresBase : String := "https://fapi.binance.com"

/-- `BinanceClient.get_funding_rate`: swap `self.base_url` to the futures
host, call `self._request` (modelled by the `respond` oracle applied to
the full URL `self.base_url + endpoint`; an `Except.error` is a raised
`RequestException`), and restore the original base URL in the `finally`
block on both paths.  The pair returned is (call outcome, final client
state). -/
def get_funding_rate (c : BinanceClientState)
    (respond : String → Except String String) :
    Except String String × BinanceClientState :=
  let original_base := c.base_url
  let c1 : BinanceClientState := { c with base_url := futuresBase }
  let result := respond (c1.base_url ++ "/fapi/v1/premiumIndex")
  (result, { c1 with base_url := original_base })

/-- `BinanceClient.get_open_interest`: same swap-and-restore pattern with
endpoint `/fapi/v1/openInterest`. -/
def get_open_interest (c : BinanceClientState)
    (respond : String → Except String String) :
    Except String String × BinanceClientState :=
  let original_base := c.base_url
  let c1 : BinanceClientState := { c with base_url := futuresBase }
  let result := respond (c1.base_url ++ "/fapi/v1/openInterest")
  (result, { c1 with base_url := original_base })

/-- `BinanceClient.get_long_short_ratio`: same swap-and-restore pattern
with endpoint `/futures/data/globalLongShortAccountRatio`. -/
def get_long_short_ratio (c : BinanceClientState)
    (respond : String → Except String String) :
    Except String String × BinanceClientState :=
  let original_base := c.base_url
  let c1 : BinanceClientState := { c with base_url := futuresBase }
  let result := respond (c1.base_url ++ "/futures/data/globalLongShortAccountRatio")
  (result, { c1 with base_url := original_base })

/-! ## Theorems: fusion engine -/

/-- Every configured name carries a positive weight. -/
theorem weights_pos (n : SigName) : 0 < calculate_signal_weights n := by
  cases n <;> norm_num [calculate_signal_weights]

/-- A non-empty weighted signal list has positive total weight. -/
theorem totalWeight_pos (l : List (SigName × SignalData)) (h : l ≠ []) :
    0 < totalWeight l := by
  apply List.sum_pos
  · intro x hx
    obtain ⟨q, _, rfl⟩ := List.mem_map.mp hx
    exact weights_pos q.1
  · simpa using h

/-- When every signal is still valid at the fusion time, the validity
filter keeps the whole list. -/
theorem validSignals_eq_self (signals : List (SigName × SignalData)) (t : ℤ)
    (hv : ∀ q ∈ signals, q.2.timestamp + validity_period q.1 ≥ t) :
    validSignals signals t = signals := by
  apply List.filter_eq_self.mpr
  intro q hq
  exact decide_eq_true (hv q hq)

/-- C3: on a non-empty set of signals all valid at the fusion time (every
name carries weight, as the weight table covers all configured names),
`process_signals` returns a decision whose confidence and strength are the
weight-normalised sums `Σ confidence·w / Σ w` and `Σ |strength|·w / Σ w`,
and — whenever the threshold veto does not fire — whose action is the
direction classification of `Σ direction·w / Σ w` (`BUY` above `0.3`,
`SELL` below `-0.3`, `HOLD` otherwise). -/
theorem c3_fusion_weighted_average (p : SignalProcessor)
    (signals : List (SigName × SignalData)) (t : ℤ)
    (hne : signals ≠ [])
    (hv : ∀ q ∈ signals, q.2.timestamp + validity_period q.1 ≥ t) :
    ∃ d, process_signals p signals t = some d ∧
      d.confidence = wConfSum signals / totalWeight signals ∧
      d.strength = wStrSum signals / totalWeight signals ∧
      (p.confidence_threshold ≤ d.confidence → p.strength_threshold ≤ d.strength →
        d.action = classifyDirection (wDirSum signals / totalWeight signals)) := by
  have h1 : signals.isEmpty = false := by
    cases signals with
    | nil => exact absurd rfl hne
    | cons a l => rfl
  have h2 := validSignals_eq_self signals t hv
  have h3 : totalWeight signals ≠ 0 := (totalWeight_pos signals hne).ne'
  by_cases hveto : wConfSum signals / totalWeight signals < p.confidence_threshold ∨
      wStrSum signals / totalWeight signals < p.strength_threshold
  · have heq : process_signals p signals t =
        some ⟨t, .HOLD, wConfSum signals / totalWeight signals,
              signals.map Prod.snd,
              .belowThresholds (wConfSum signals / totalWeight signals)
                (wStrSum signals / totalWeight signals),
              wStrSum signals / totalWeight signals⟩ := by
      unfold process_signals
      rw [h2, h1]
      simp only [Bool.false_eq_true, if_false]
      rw [if_neg h3, if_pos hveto]
      simp [h1]
    refine ⟨_, heq, rfl, rfl, fun hc hs => ?_⟩
    rcases hveto with hlt | hlt
    · exact absurd hc (not_le.mpr hlt)
    · exact absurd hs (not_le.mpr hlt)
  · have heq : process_signals p signals t =
        some ⟨t, classifyDirection (wDirSum signals / totalWeight signals),
              wConfSum signals / totalWeight signals,
              signals.map Prod.snd,
              match classifyDirection (wDirSum signals / totalWeight signals) with
              | .BUY => .positive
                  ((signals.filter fun q => q.2.direction > 0).map Prod.fst)
              | .SELL => .negative
                  ((signals.filter fun q => q.2.direction < 0).map Prod.fst)
              | .HOLD => .inconclusive,
              wStrSum signals / totalWeight signals⟩ := by
      unfold process_signals
      rw [h2, h1]
      simp only [Bool.false_eq_true, if_false]
      rw [if_neg h3, if_neg hveto]
      simp [h1]
    exact ⟨_, heq, rfl, rfl, fun _ _ => rfl⟩

/-- C3 witness: the claim's concrete instance — two equally-weighted
(0.20 each) signals, direction 1, strength 80, confidence 0.9, both
fresh — fuse to a `BUY` decision with confidence 0.9 and strength 80. -/
theorem c3_fusion_weighted_average_witness :
    [((.ORDER_FLOW : SigName), (⟨100, .ORDER_FLOW, 80, 1, 9/10, 120⟩ : SignalData)),
     (.MARKET_DEPTH, ⟨100, .MARKET_DEPTH, 80, 1, 9/10, 120⟩)] ≠ [] ∧
    (∃ d, process_signals defaultProcessor
        [(.ORDER_FLOW, ⟨100, .ORDER_FLOW, 80, 1, 9/10, 120⟩),
         (.MARKET_DEPTH, ⟨100, .MARKET_DEPTH, 80, 1, 9/10, 120⟩)] 100 = some d ∧
      d.confidence = wConfSum [(.ORDER_FLOW, ⟨100, .ORDER_FLOW, 80, 1, 9/10, 120⟩),
         (.MARKET_DEPTH, ⟨100, .MARKET_DEPTH, 80, 1, 9/10, 120⟩)] /
        totalWeight [(.ORDER_FLOW, ⟨100, .ORDER_FLOW, 80, 1, 9/10, 120⟩),
         (.MARKET_DEPTH, ⟨100, .MARKET_DEPTH, 80, 1, 9/10, 120⟩)] ∧
      d.strength = wStrSum [(.ORDER_FLOW, ⟨100, .ORDER_FLOW, 80, 1, 9/10, 120⟩),
         (.MARKET_DEPTH, ⟨100, .MARKET_DEPTH, 80, 1, 9/10, 120⟩)] /
        totalWeight [(.ORDER_FLOW, ⟨100, .ORDER_FLOW, 80, 1, 9/10, 120⟩),
         (.MARKET_DEPTH, ⟨100, .MARKET_DEPTH, 80, 1, 9/10, 120⟩)] ∧
      (defaultProcessor.confidence_threshold ≤ d.confidence →
        defaultProcessor.strength_threshold ≤ d.strength →
        d.action = classifyDirection
          (wDirSum [(.ORDER_FLOW, ⟨100, .ORDER_FLOW, 80, 1, 9/10, 120⟩),
             (.MARKET_DEPTH, ⟨100, .MARKET_DEPTH, 80, 1, 9/10, 120⟩)] /
           totalWeight [(.ORDER_FLOW, ⟨100, .ORDER_FLOW, 80, 1, 9/10, 120⟩),
             (.MARKET_DEPTH, ⟨100, .MARKET_DEPTH, 80, 1, 9/10, 120⟩)]))) ∧
    process_signals defaultProcessor
        [(.ORDER_FLOW, ⟨100, .ORDER_FLOW, 80, 1, 9/10, 120⟩),
         (.MARKET_DEPTH, ⟨100, .MARKET_DEPTH, 80, 1, 9/10, 120⟩)] 100 =
      some ⟨100, .BUY, 9/10,
            [⟨100, .ORDER_FLOW, 80, 1, 9/10, 120⟩,
             ⟨100, .MARKET_DEPTH, 80, 1, 9/10, 120⟩],
            .positive [.ORDER_FLOW, .MARKET_DEPTH], 80⟩ :=
  ⟨by decide,
   c3_fusion_weighted_average defaultProcessor _ 100 (by decide) (by decide),
   by norm_num [process_signals, validSignals, totalWeight, wDirSum, wStrSum,
     wConfSum, calculate_signal_weights, validity_period, classifyDirection,
     defaultProcessor, List.filter]⟩

/-- C4: the threshold veto.  Whatever decision `process_signals` returns,
if the normalised weighted confidence is below the confidence threshold or
the normalised weighted strength is below the strength threshold, the
action is `HOLD` — the veto overrides the direction classification. -/
theorem c4_threshold_veto_forces_hold (p : SignalProcessor)
    (signals : List (SigName × SignalData)) (t : ℤ) (d : TradingDecision)
    (hd : process_signals p signals t = some d)
    (hlow : wConfSum (validSignals signals t) / totalWeight (validSignals signals t)
        < p.confidence_threshold ∨
      wStrSum (validSignals signals t) / totalWeight (validSignals signals t)
        < p.strength_threshold) :
    d.action = .HOLD := by
  unfold process_signals at hd
  dsimp only at hd
  rw [if_pos hlow] at hd
  split at hd
  · exact absurd hd (by simp)
  · split at hd
    · exact absurd hd (by simp)
    · split at hd
      · exact absurd hd (by simp)
      · cases hd
        rfl

/-- C4 witness: the claim's concrete instance — two strongly positive
signals (direction 1, strength 80) whose confidence 0.5 is below the 0.7
threshold fuse to `HOLD` despite the positive weighted direction. -/
theorem c4_threshold_veto_forces_hold_witness :
    process_signals defaultProcessor
        [((.ORDER_FLOW : SigName), (⟨100, .ORDER_FLOW, 80, 1, 1/2, 120⟩ : SignalData)),
         (.MARKET_DEPTH, ⟨100, .MARKET_DEPTH, 80, 1, 1/2, 120⟩)] 100 =
      some ⟨100, .HOLD, 1/2,
            [⟨100, .ORDER_FLOW, 80, 1, 1/2, 120⟩,
             ⟨100, .MARKET_DEPTH, 80, 1, 1/2, 120⟩],
            .belowThresholds (1/2) 80, 80⟩ ∧
    (⟨100, .HOLD, 1/2,
      [⟨100, .ORDER_FLOW, 80, 1, 1/2, 120⟩,
       ⟨100, .MARKET_DEPTH, 80, 1, 1/2, 120⟩],
      .belowThresholds (1/2) 80, 80⟩ : TradingDecision).action = .HOLD := by
  have heq : process_signals defaultProcessor
      [((.ORDER_FLOW : SigName), (⟨100, .ORDER_FLOW, 80, 1, 1/2, 120⟩ : SignalData)),
       (.MARKET_DEPTH, ⟨100, .MARKET_DEPTH, 80, 1, 1/2, 120⟩)] 100 =
      some ⟨100, .HOLD, 1/2,
            [⟨100, .ORDER_FLOW, 80, 1, 1/2, 120⟩,
             ⟨100, .MARKET_DEPTH, 80, 1, 1/2, 120⟩],
            .belowThresholds (1/2) 80, 80⟩ := by
    norm_num [process_signals, validSignals, totalWeight, wDirSum, wStrSum,
      wConfSum, calculate_signal_weights, validity_period, classifyDirection,
      defaultProcessor, List.filter]
  exact ⟨heq,
    c4_threshold_veto_forces_hold defaultProcessor _ 100 _ heq
      (by norm_num [validSignals, totalWeight, wConfSum,
        calculate_signal_weights, validity_period, defaultProcessor,
        List.filter])⟩

/-- C8: `process_signals` returns `none` on the empty mapping, and
returns `none` whenever every supplied signal is past its configured
validity window at the fusion timestamp
(`current_time - signal.timestamp > validity_period`). -/
theorem c8_empty_or_expired_returns_none :
    (∀ (p : SignalProcessor) (t : ℤ), process_signals p [] t = none) ∧
    (∀ (p : SignalProcessor) (signals : List (SigName × SignalData)) (t : ℤ),
      (∀ q ∈ signals, q.2.timestamp + validity_period q.1 < t) →
      process_signals p signals t = none) := by
  constructor
  · intro p t
    rfl
  · intro p signals t hexp
    have hfil : validSignals signals t = [] := by
      apply List.filter_eq_nil_iff.mpr
      intro q hq
      simpa using not_le.mpr (hexp q hq)
    unfold process_signals
    rw [hfil]
    cases signals <;> rfl

/-- C8 witness: a mapping whose single signal expired (timestamp 0,
validity 120, fusion time 1000) fuses to `none`, as does the empty
mapping. -/
theorem c8_empty_or_expired_returns_none_witness :
    process_signals defaultProcessor [] 1000 = none ∧
    (∀ q ∈ [((.ORDER_FLOW : SigName), (⟨0, .ORDER_FLOW, 80, 1, 9/10, 120⟩ : SignalData))],
      q.2.timestamp + validity_period q.1 < 1000) ∧
    process_signals defaultProcessor
      [(.ORDER_FLOW, ⟨0, .ORDER_FLOW, 80, 1, 9/10, 120⟩)] 1000 = none :=
  ⟨c8_empty_or_expired_returns_none.1 defaultProcessor 1000,
   by decide,
   c8_empty_or_expired_returns_none.2 defaultProcessor _ 1000 (by decide)⟩

/-- C9: determinism of fusion.  All impure reads available to
`process_signals` are collected in an `Env`; the function reads the clock
exactly once and the randomness source never, so two runs over identical
signal mappings and configuration whose environments agree on that single
clock reading produce identical (bit-for-bit equal) results, whatever the
rest of the environments look like. -/
theorem c9_fuse_deterministic (p : SignalProcessor)
    (signals : List (SigName × SignalData)) (env1 env2 : Env)
    (h : env1.clock 0 = env2.clock 0) :
    process_signals_run p signals env1 = process_signals_run p signals env2 := by
  unfold process_signals_run
  rw [h]

/-- C9 witness: two environments that differ in their randomness source
and in every later clock reading, but agree on the single reading the
fusion pass performs, give identical results. -/
theorem c9_fuse_deterministic_witness :
    (Env.mk (fun _ => 100) (fun _ => 0)).clock 0 =
      (Env.mk (fun k => 100 + k) (fun k => k + 7)).clock 0 ∧
    process_signals_run defaultProcessor
        [((.ORDER_FLOW : SigName), (⟨100, .ORDER_FLOW, 80, 1, 9/10, 120⟩ : SignalData))]
        (Env.mk (fun _ => 100) (fun _ => 0)) =
      process_signals_run defaultProcessor
        [(.ORDER_FLOW, ⟨100, .ORDER_FLOW, 80, 1, 9/10, 120⟩)]
        (Env.mk (fun k => 100 + k) (fun k => k + 7)) :=
  ⟨by norm_num,
   c9_fuse_deterministic defaultProcessor _ _ _ (by norm_num)⟩

/-! ## Theorems: signal cache and scheduler -/

/-- C5: cache reuse.  A first `getOrCompute` at time `t1` that computes
(the signal is due) stores the fresh signal; a second call at time `t2`
before the update interval has elapsed (`t2 - t1 < updateInterval`) and
before the cached entry expired (`t2 - timestamp ≤ validityPeriod`)
returns the identical cached signal with the state unchanged and the
computed flag `false` — whatever compute function `fn2` the second call
carries, it is never invoked, so no duplicate upstream calls happen. -/
theorem c5_cached_signal_reused (name : SigName) (sig : SignalData)
    (st : GenState) (t1 t2 : ℤ) (fn2 : Except IndicatorError SignalData)
    (hdue : should_update_signal st name t1 = true)
    (hts : sig.timestamp = t1)
    (hint : t2 - t1 < update_interval name)
    (hval : t2 - t1 ≤ validity_period name) :
    generate_signal name (.ok sig) st t1 =
      .ok (sig, storeSignal st name sig t1, true) ∧
    generate_signal name fn2 (storeSignal st name sig t1) t2 =
      .ok (sig, storeSignal st name sig t1, false) := by
  constructor
  · unfold generate_signal
    cases hc : st.signal_cache name with
    | none => rfl
    | some cached =>
      rw [hdue]
      rfl
  · have hcache : (storeSignal st name sig t1).signal_cache name = some sig := by
      simp [storeSignal]
    have hlast : (storeSignal st name sig t1).last_update name = some t1 := by
      simp [storeSignal]
    have hdue2 : should_update_signal (storeSignal st name sig t1) name t2 = false := by
      unfold should_update_signal
      rw [hlast]
      simpa using not_le.mpr hint
    have hval2 : is_signal_valid (storeSignal st name sig t1) name t2 = true := by
      unfold is_signal_valid
      rw [hcache]
      simpa [hts] using hval
    unfold generate_signal
    rw [hcache, hdue2, hval2]
    rfl

/-- C5 witness: a fresh generator computes `ORDER_FLOW` at `t = 1000` and,
recalled at `t = 1030` (within the 60 s update interval and the 120 s
validity period), returns the identical cached signal without invoking
the second call's compute function — which here would fail if invoked. -/
theorem c5_cached_signal_reused_witness :
    should_update_signal emptyGenState .ORDER_FLOW 1000 = true ∧
    generate_signal .ORDER_FLOW
        (.ok ⟨1000, .ORDER_FLOW, 50, 1, 7/10, 120⟩) emptyGenState 1000 =
      .ok (⟨1000, .ORDER_FLOW, 50, 1, 7/10, 120⟩,
           storeSignal emptyGenState .ORDER_FLOW
             ⟨1000, .ORDER_FLOW, 50, 1, 7/10, 120⟩ 1000, true) ∧
    generate_signal .ORDER_FLOW (.error (.upstream "unwanted recompute"))
        (storeSignal emptyGenState .ORDER_FLOW
          ⟨1000, .ORDER_FLOW, 50, 1, 7/10, 120⟩ 1000) 1030 =
      .ok (⟨1000, .ORDER_FLOW, 50, 1, 7/10, 120⟩,
           storeSignal emptyGenState .ORDER_FLOW
             ⟨1000, .ORDER_FLOW, 50, 1, 7/10, 120⟩ 1000, false) := by
  have h := c5_cached_signal_reused .ORDER_FLOW
    ⟨1000, .ORDER_FLOW, 50, 1, 7/10, 120⟩ emptyGenState 1000 1030
    (.error (.upstream "unwanted recompute"))
    (by decide) rfl (by decide) (by decide)
  exact ⟨by decide, h.1, h.2⟩

/-- C1 counterexample: the claim says an erroring compute function still
yields a degraded Signal (strength 0, direction 0) from the scheduler.  In
the source, `generate_order_flow_signal` and its siblings contain no
exception handler, so on a fresh generator (cache empty, signal due) an
erroring compute body makes `getOrCompute` itself fail: the error
propagates unchanged and no Signal — degraded or otherwise — is
returned. -/
theorem c1_error_propagates_counterexample :
    generate_signal .ORDER_FLOW (.error (.upstream "indicator raised"))
      emptyGenState 1000 = .error (.upstream "indicator raised") := rfl

/-- C1 amended: whenever the cached entry cannot be served (the signal is
due for update, or the cache has no valid entry), an erroring compute
function propagates out of `getOrCompute` unchanged — no degraded
zero-strength/zero-direction Signal is substituted — and consequently a
single erroring compute body aborts the whole `get_all_signals` pass, so
fusion receives no signal set at all for that cycle. -/
theorem c1_scheduler_propagates_compute_error :
    (∀ (name : SigName) (e : IndicatorError) (st : GenState) (t : ℤ),
      should_update_signal st name t = true ∨ is_signal_valid st name t = false →
      generate_signal name (.error e) st t = .error e) ∧
    (∀ (e : IndicatorError) (t : ℤ),
      get_all_signals (fun _ => .error e) emptyGenState t = .error e) := by
  constructor
  · intro name e st t h
    unfold generate_signal
    cases hc : st.signal_cache name with
    | none => rfl
    | some cached =>
      rcases h with hdue | hinv
      · rw [hdue]
        rfl
      · have : is_signal_valid st name t = false := hinv
        rw [this]
        simp
  · intro e t
    rfl

/-- C1 amended witness: on a fresh generator at `t = 1000` the
`ORDER_FLOW` signal is due, an erroring compute propagates, and the full
`get_all_signals` pass aborts with that error. -/
theorem c1_scheduler_propagates_compute_error_witness :
    (should_update_signal emptyGenState .ORDER_FLOW 1000 = true ∨
      is_signal_valid emptyGenState .ORDER_FLOW 1000 = false) ∧
    generate_signal .ORDER_FLOW (.error (.upstream "boom"))
      emptyGenState 1000 = .error (.upstream "boom") ∧
    get_all_signals (fun _ => .error (.upstream "boom")) emptyGenState 1000 =
      .error (.upstream "boom") :=
  ⟨Or.inl (by decide),
   c1_scheduler_propagates_compute_error.1 .ORDER_FLOW (.upstream "boom")
     emptyGenState 1000 (Or.inl (by decide)),
   c1_scheduler_propagates_compute_error.2 (.upstream "boom") 1000⟩

/-! ## Theorems: resilient RPC client -/

/-- Every request answered HTTP 429 with no `Retry-After` header. -/
def all429Oracle : ℕ → HttpOutcome := fun _ => .resp 429 none (.err false "")

/-- Every request answered HTTP 429 with `Retry-After: r`. -/
def all429RA (r : ℕ) : ℕ → HttpOutcome := fun _ => .resp 429 (some r) (.err false "")

/-- Every request fails at transport level with a per-request message. -/
def transportFailOracle (msgs : ℕ → String) : ℕ → HttpOutcome :=
  fun k => .transportErr (msgs k)

/-- Every request answered 200 with a JSON-RPC error payload matching the
rate-limit substrings. -/
def rlPayloadOracle : ℕ → HttpOutcome :=
  fun _ => .resp 200 none (.err true "rate limit exceeded")

/-- The claim C6 scenario: the first two endpoints answer HTTP 500 and
the third answers HTTP 200 with a result. -/
def failoverOracle : ℕ → HttpOutcome := fun k =>
  if k = 0 then .resp 500 none (.err false "")
  else if k = 1 then .resp 500 none (.err false "")
  else .resp 200 none (.ok 42)

/-- Helper: on an endless stream of rate-limit error payloads the retry
counter is never touched, so the loop never leaves its initial attempt
cycle — whatever fuel it is given, it is still running. -/
theorem rlPayload_never_terminates (fuel : ℕ) :
    ∀ (k rc idx : ℕ) (acc : List ℕ), rc ≤ maxRetries →
      (makeRequestAux rlPayloadOracle 4 fuel k rc idx acc).res = .diverge := by
  induction fuel with
  | zero =>
    intro k rc idx acc h
    rfl
  | succ fuel ih =>
    intro k rc idx acc h
    unfold makeRequestAux
    rw [if_neg (not_lt.mpr h)]
    exact ih (k + 1) rc (idx + 1) (topSleep rc acc) h

/-- C2 counterexample: when every endpoint keeps answering HTTP 429, the
retry counter is exhausted through the 429 branch, the `while` guard fails
and `_make_request` falls off the loop — Python then returns `None`
instead of raising an exhausted-retries error. -/
theorem c2_429_exhaustion_returns_none_counterexample :
    (make_request all429Oracle 4 32).res = .retNone := by decide

/-- C2 amended: how the retry loop actually terminates depends on which
branch exhausts it.  (1) When every request fails at transport level (or
via `raise_for_status`), the loop raises the exhausted-retries error
carrying the last observed error — for the 4-endpoint pool, the error of
request 15 (0-based), after backoff sleeps 2,2,2,2,4,4,4,4,8,8,8,8.
(2) When every request is answered HTTP 429, the loop exits with
`retry_count = 4` and returns `None` — no exception.  (3) When every
request carries a rate-limit error payload, `retry_count` is never
incremented and the loop never terminates. -/
theorem c2_exhaustion_behaviour :
    (∀ msgs : ℕ → String,
      make_request (transportFailOracle msgs) 4 20 =
        ⟨.exn (.exhausted (.transport (msgs 15))),
         [2, 2, 2, 2, 4, 4, 4, 4, 8, 8, 8, 8], 4⟩) ∧
    (make_request all429Oracle 4 32).res = .retNone ∧
    (∀ fuel : ℕ, (make_request rlPayloadOracle 4 fuel).res = .diverge) := by
  refine ⟨fun msgs => rfl, by decide, fun fuel => ?_⟩
  exact rlPayload_never_terminates fuel 0 0 0 [] (by decide)

/-- C6: endpoint failover does not consume attempts.  Concretely, with a
pool of 3 endpoints where the first two answer HTTP 500 and the third
answers HTTP 200, the call succeeds with the attempt counter still 0 and
no sleeps.  In general, one loop iteration whose request fails — in the
transport/HTTP-error branch (transport failure or non-429 status ≥ 400,
both via the shared except handler) or in the HTTP 429 branch — advances
to the next request with the same retry counter when the endpoint index
has not wrapped to 0, and with the counter incremented by exactly one when
it has (with retries remaining for the except branch; the 429 branch never
raises, so its wrap case needs no such proviso).  The 429 branch
additionally records its `Retry-After`-or-default sleep. -/
theorem c6_failover_does_not_count_attempt :
    make_request failoverOracle 3 10 = ⟨.ok 42, [], 0⟩ ∧
    (∀ (oracle : ℕ → HttpOutcome) (n fuel k rc idx : ℕ) (acc : List ℕ)
        (e : LastErr),
      rc ≤ maxRetries → classifyOutcome (oracle k) = .httpFail e →
      (idx + 1) % n ≠ 0 →
      makeRequestAux oracle n (fuel + 1) k rc idx acc =
        makeRequestAux oracle n fuel (k + 1) rc (idx + 1) (topSleep rc acc)) ∧
    (∀ (oracle : ℕ → HttpOutcome) (n fuel k rc idx : ℕ) (acc : List ℕ)
        (e : LastErr),
      rc ≤ maxRetries → classifyOutcome (oracle k) = .httpFail e →
      (idx + 1) % n = 0 → rc + 1 ≤ maxRetries →
      makeRequestAux oracle n (fuel + 1) k rc idx acc =
        makeRequestAux oracle n fuel (k + 1) (rc + 1) (idx + 1) (topSleep rc acc)) ∧
    (∀ (oracle : ℕ → HttpOutcome) (n fuel k rc idx : ℕ) (acc : List ℕ) (d : ℕ),
      rc ≤ maxRetries → classifyOutcome (oracle k) = .fail429 d →
      (idx + 1) % n ≠ 0 →
      makeRequestAux oracle n (fuel + 1) k rc idx acc =
        makeRequestAux oracle n fuel (k + 1) rc (idx + 1) (d :: topSleep rc acc)) ∧
    (∀ (oracle : ℕ → HttpOutcome) (n fuel k rc idx : ℕ) (acc : List ℕ) (d : ℕ),
      rc ≤ maxRetries → classifyOutcome (oracle k) = .fail429 d →
      (idx + 1) % n = 0 →
      makeRequestAux oracle n (fuel + 1) k rc idx acc =
        makeRequestAux oracle n fuel (k + 1) (rc + 1) (idx + 1)
          (d :: topSleep rc acc)) := by
  refine ⟨by decide, ?_, ?_, ?_, ?_⟩
  · intro oracle n fuel k rc idx acc e hrc hcl hwrap
    conv_lhs => rw [makeRequestAux.eq_def]
    dsimp only
    rw [if_neg (not_lt.mpr hrc)]
    simp only [hcl, if_neg hwrap, if_neg (not_lt.mpr hrc)]
  · intro oracle n fuel k rc idx acc e hrc hcl hwrap hrc1
    conv_lhs => rw [makeRequestAux.eq_def]
    dsimp only
    rw [if_neg (not_lt.mpr hrc)]
    simp only [hcl, if_pos hwrap, if_neg (not_lt.mpr hrc1)]
  · intro oracle n fuel k rc idx acc d hrc hcl hwrap
    conv_lhs => rw [makeRequestAux.eq_def]
    dsimp only
    rw [if_neg (not_lt.mpr hrc)]
    simp only [hcl, if_neg hwrap]
  · intro oracle n fuel k rc idx acc d hrc hcl hwrap
    conv_lhs => rw [makeRequestAux.eq_def]
    dsimp only
    rw [if_neg (not_lt.mpr hrc)]
    simp only [hcl, if_pos hwrap]

/-- C6 witness: the first 500-failure of the concrete scenario (request 0,
index 0 of a 3-endpoint pool, counter 0) advances to endpoint 1 leaving
the attempt counter at 0; a first 429 response (request 0, index 0 of the
4-endpoint pool, counter 0) likewise advances to endpoint 1 with the
counter still 0, recording only its default 2 s sleep; and the whole
500/500/200 scenario run succeeds with the counter still 0. -/
theorem c6_failover_does_not_count_attempt_witness :
    make_request failoverOracle 3 10 = ⟨.ok 42, [], 0⟩ ∧
    makeRequestAux failoverOracle 3 10 0 0 0 [] =
      makeRequestAux failoverOracle 3 9 1 0 1 (topSleep 0 []) ∧
    makeRequestAux all429Oracle 4 10 0 0 0 [] =
      makeRequestAux all429Oracle 4 9 1 0 1 (2 :: topSleep 0 []) :=
  ⟨c6_failover_does_not_count_attempt.1,
   c6_failover_does_not_count_attempt.2.1 failoverOracle 3 9 0 0 0 []
     (.httpStatus 500) (by decide) (by decide) (by decide),
   c6_failover_does_not_count_attempt.2.2.2.1 all429Oracle 4 9 0 0 0 [] 2
     (by decide) (by decide) (by decide)⟩

/-- C7 counterexample: with every endpoint answering HTTP 429 and no
`Retry-After` header, the sleep trace is not the claimed `2, 4, 8` and the
run does not end in an exhausted-retries error — it falls off the loop
and returns `None`. -/
theorem c7_backoff_sequence_counterexample :
    (make_request all429Oracle 4 32).sleeps ≠ [2, 4, 8] ∧
    (make_request all429Oracle 4 32).res = .retNone := by decide

/-- C7 amended: under all-429 responses the client sleeps the
`Retry-After` value (default 2 s) after every single 429 response, and
additionally sleeps the exponential backoff `2 * 2 ^ (retry_count - 1)`
before every request of every cycle with `retry_count ≥ 1`; for the
4-endpoint pool the observed trace is `2,2,2,2` then `2,2` ×4 then
`4,2` ×4 then `8,2` ×4, after which the loop exits returning `None`
(after the fourth full cycle, not the third, and with no exception).
A server-supplied `Retry-After: r` replaces only the per-response default
2 s sleep; the computed backoff sleeps still occur. -/
theorem c7_backoff_and_retry_after :
    make_request all429Oracle 4 32 =
      ⟨.retNone,
       [2, 2, 2, 2, 2, 2, 2, 2, 2, 2, 2, 2,
        4, 2, 4, 2, 4, 2, 4, 2, 8, 2, 8, 2, 8, 2, 8, 2], 4⟩ ∧
    (∀ r : ℕ, make_request (all429RA r) 4 32 =
      ⟨.retNone,
       [r, r, r, r, 2, r, 2, r, 2, r, 2, r,
        4, r, 4, r, 4, r, 4, r, 8, r, 8, r, 8, r, 8, r], 4⟩) :=
  ⟨by decide, fun r => rfl⟩

/-! ## Theorems: Binance futures-endpoint wrappers -/

/-- C10: each futures wrapper issues its request against the swapped-in
futures base URL, and — on the success path and the exception path alike,
since the restore sits in a `finally` block — hands back a client state
identical to the initial one: `base_url` is restored and no other
attribute binding (`api_key`, `api_secret`) is touched. -/
theorem c10_base_url_swap_restored (c : BinanceClientState)
    (respond : String → Except String String) :
    (get_funding_rate c respond).2 = c ∧
    (get_open_interest c respond).2 = c ∧
    (get_long_short_ratio c respond).2 = c ∧
    (get_funding_rate c respond).1 =
      respond (futuresBase ++ "/fapi/v1/premiumIndex") ∧
    (get_open_interest c respond).1 =
      respond (futuresBase ++ "/fapi/v1/openInterest") ∧
    (get_long_short_ratio c respond).1 =
      respond (futuresBase ++ "/futures/data/globalLongShortAccountRatio") :=
  ⟨rfl, rfl, rfl, rfl, rfl, rfl⟩

end SolTrade
